import Mathlib

/-!
Verification development for the client-monitoring core of the repository:
the `ClientMonitoringHandler` (session registry, activity buffer, compliance
classifier, violation response, screenshot ingest pipeline) and the
server-side `ScreenCaptureService` (`captureScreen`).

The JavaScript source is shallowly embedded: the mutable `Map`s become
association lists, `Date.now()` becomes an explicit `Nat` parameter,
database/collaborator calls become list appends or `Option`-valued
parameters, and thrown-and-caught errors become explicit branches.
-/

namespace Monitoring

/-- Substring test on character lists: does `hay` contain `needle` as a
contiguous run?  Models JavaScript `String.prototype.includes`. -/
def charContains (needle : List Char) : List Char → Bool
  | [] => needle.isEmpty
  | c :: rest => needle.isPrefixOf (c :: rest) || charContains needle rest

/-- JavaScript `s.includes(sub)`. -/
def jsIncludes (s sub : String) : Bool :=
  charContains sub.toList s.toList

/-- JavaScript `s.toLowerCase()` (ASCII case folding, which is all the
source's configuration strings use). -/
def jsLower (s : String) : String :=
  String.mk (s.toList.map Char.toLower)

/-- The client activity payload delivered with `client-activity-update`:
`{ url, domain, title, path, isActive, userAgent, timestamp }`.  `title` is
optional because the handler reads it as `activity.title || ''`. -/
structure Activity where
  url : String
  domain : String
  title : Option String
  path : String
  isActive : Bool
  userAgent : String
  timestamp : Nat
deriving DecidableEq, Repr

/-- A `WebsiteWhitelist` document as used by the compliance query: only its
`url` and `domain` fields are consulted. -/
structure WhitelistEntry where
  url : String
  domain : String
deriving DecidableEq, Repr

/-- The Mongo query in `checkActivityCompliance`:
`$or` of exact `url` match, exact `domain` match, and a case-insensitive
regex built from the activity's domain with dots escaped, tested against the
entry's `url` field (an unanchored literal substring match). -/
def matchesWhitelist (e : WhitelistEntry) (a : Activity) : Bool :=
  e.url == a.url || e.domain == a.domain ||
    jsIncludes (jsLower e.url) (jsLower a.domain)

/-- The curated violation domain list from `isExplicitViolation`. -/
def violationDomains : List String :=
  [ "facebook.com", "instagram.com", "twitter.com", "x.com", "tiktok.com",
    "snapchat.com", "linkedin.com", "pinterest.com", "reddit.com",
    "tumblr.com", "discord.com", "whatsapp.com", "telegram.org",
    "youtube.com", "netflix.com", "hulu.com", "disney.com",
    "disneyplus.com", "amazon.com/prime", "twitch.tv", "vimeo.com",
    "dailymotion.com", "tiktok.com",
    "steam.com", "steamcommunity.com", "epicgames.com", "battle.net",
    "blizzard.com", "roblox.com", "minecraft.net", "ea.com", "ubisoft.com",
    "rockstargames.com", "playstation.com", "xbox.com", "nintendo.com",
    "itch.io", "gog.com",
    "buzzfeed.com", "9gag.com", "imgur.com", "meme", "funny",
    "amazon.com", "ebay.com", "etsy.com", "alibaba.com", "aliexpress.com",
    "walmart.com", "target.com", "bestbuy.com",
    "tinder.com", "bumble.com", "match.com", "okcupid.com", "pof.com",
    "pornhub.com", "xvideos.com", "xhamster.com", "redtube.com",
    "youporn.com" ]

/-- The curated violation keyword list from `isExplicitViolation`. -/
def violationKeywords : List String :=
  [ "game", "gaming", "play", "casino", "bet", "gambling",
    "social", "chat", "dating", "meme", "funny", "entertainment",
    "stream", "video", "movie", "tv", "series", "anime",
    "shop", "buy", "sale", "deal", "coupon", "fashion",
    "adult", "xxx", "porn", "sex" ]

/-- First check of `isExplicitViolation`: the lower-cased domain contains
some entry of the violation domain list. -/
def violationDomainMatch (a : Activity) : Bool :=
  violationDomains.any (fun v => jsIncludes (jsLower a.domain) v)

/-- Second check of `isExplicitViolation`: the lower-cased URL contains one
of the hard-coded violation URL path patterns. -/
def violationUrlPatternMatch (a : Activity) : Bool :=
  let url := jsLower a.url
  jsIncludes url "youtube.com/watch" ||
  jsIncludes url "facebook.com/" ||
  jsIncludes url "instagram.com/" ||
  jsIncludes url "twitter.com/" ||
  jsIncludes url "x.com/" ||
  jsIncludes url "tiktok.com/" ||
  jsIncludes url "reddit.com/r/" ||
  jsIncludes url "twitch.tv/" ||
  jsIncludes url "netflix.com/watch" ||
  jsIncludes url "amazon.com/gp/video" ||
  jsIncludes url "steam.com/app/"

/-- Third check of `isExplicitViolation`: some violation keyword occurs in
the lower-cased URL or the lower-cased title (`activity.title || ''`). -/
def violationKeywordMatch (a : Activity) : Bool :=
  violationKeywords.any (fun k =>
    jsIncludes (jsLower a.url) k || jsIncludes (jsLower (a.title.getD "")) k)

/-- `isExplicitViolation(activity)`: the three checks in source order; the
source's early returns are the short-circuiting disjunction. -/
def isExplicitViolation (a : Activity) : Bool :=
  violationDomainMatch a || violationUrlPatternMatch a ||
    violationKeywordMatch a

/-- The curated work-tool domain list from `isWorkRelatedActivity`. -/
def workDomains : List String :=
  [ "github.com", "gitlab.com", "bitbucket.org", "stackoverflow.com",
    "stackexchange.com", "developer.mozilla.org", "w3schools.com",
    "codepen.io", "jsfiddle.net",
    "slack.com", "teams.microsoft.com", "zoom.us", "meet.google.com",
    "webex.com", "gotomeeting.com", "skype.com",
    "docs.google.com", "sheets.google.com", "slides.google.com",
    "drive.google.com", "calendar.google.com", "gmail.com",
    "office.com", "outlook.com", "onedrive.com", "sharepoint.com",
    "aws.amazon.com", "console.aws.amazon.com", "azure.microsoft.com",
    "cloud.google.com", "heroku.com", "vercel.com", "netlify.com",
    "figma.com", "canva.com", "adobe.com", "sketch.com",
    "trello.com", "asana.com", "monday.com", "notion.so", "airtable.com",
    "jira.atlassian.com",
    "confluence.atlassian.com", "wiki.", "documentation", "docs.", "api.",
    "localhost", "127.0.0.1", "infiverse", "workflowmanager",
    "vercel.app" ]

/-- The work keyword list from `isWorkRelatedActivity`. -/
def workKeywords : List String :=
  [ "api", "documentation", "docs", "tutorial", "guide",
    "development", "programming", "code", "software",
    "project", "task", "meeting", "conference", "webinar",
    "dashboard", "admin", "management", "analytics",
    "business", "enterprise", "corporate", "professional" ]

/-- `isWorkRelatedActivity(activity)`: self-application check on the raw
URL, then work-domain match, then work-keyword match, then the
`google.com` special case, in source order. -/
def isWorkRelatedActivity (a : Activity) : Bool :=
  let domain := jsLower a.domain
  let url := jsLower a.url
  let title := jsLower (a.title.getD "")
  if jsIncludes a.url "localhost" || jsIncludes a.url "127.0.0.1" ||
     jsIncludes a.url "infiverse" || jsIncludes a.url "workflowmanager" ||
     jsIncludes a.url "vercel.app" then
    true
  else if workDomains.any (fun w => jsIncludes domain w) then
    true
  else if workKeywords.any (fun k =>
      jsIncludes url k || jsIncludes title k) then
    true
  else if jsIncludes domain "google.com" then
    if jsIncludes url "docs.google.com" || jsIncludes url "sheets.google.com" ||
       jsIncludes url "slides.google.com" || jsIncludes url "drive.google.com" ||
       jsIncludes url "calendar.google.com" || jsIncludes url "gmail.com" ||
       jsIncludes url "meet.google.com" || jsIncludes url "cloud.google.com" ||
       jsIncludes url "console.cloud.google.com" then
      true
    else if jsIncludes url "google.com/search" then
      true
    else
      false
  else
    false

/-- An alert configuration as returned by `getAlertConfig`:
`{ type, title, description, severity }`. -/
structure AlertConfig where
  type : String
  title : String
  description : String
  severity : String
deriving DecidableEq, Repr

/-- `getAlertConfig(violationType, activity)`: the category branches in
source order over the lower-cased domain and URL, falling through to the
default `unauthorized_website` configuration. -/
def getAlertConfig (_violationType : String) (a : Activity) : AlertConfig :=
  let domain := jsLower a.domain
  let url := jsLower a.url
  if jsIncludes domain "facebook.com" || jsIncludes domain "instagram.com" ||
     jsIncludes domain "twitter.com" || jsIncludes domain "x.com" ||
     jsIncludes domain "tiktok.com" || jsIncludes domain "snapchat.com" then
    { type := "social_media_access",
      title := "Social Media Access Detected",
      description := "Employee accessed social media platform: " ++ a.domain,
      severity := "high" }
  else if jsIncludes domain "steam.com" || jsIncludes domain "epicgames.com" ||
     jsIncludes domain "battle.net" || jsIncludes domain "roblox.com" ||
     jsIncludes domain "minecraft.net" || jsIncludes url "game" then
    { type := "gaming_access",
      title := "Gaming Platform Access Detected",
      description := "Employee accessed gaming platform: " ++ a.domain,
      severity := "high" }
  else if jsIncludes domain "youtube.com" || jsIncludes domain "netflix.com" ||
     jsIncludes domain "twitch.tv" || jsIncludes domain "hulu.com" then
    { type := "entertainment_access",
      title := "Entertainment Platform Access Detected",
      description := "Employee accessed entertainment platform: " ++ a.domain,
      severity := "medium" }
  else if jsIncludes domain "amazon.com" || jsIncludes domain "ebay.com" ||
     jsIncludes domain "etsy.com" || jsIncludes domain "walmart.com" then
    { type := "shopping_access",
      title := "Shopping Website Access Detected",
      description := "Employee accessed shopping website: " ++ a.domain,
      severity := "medium" }
  else if jsIncludes domain "pornhub.com" || jsIncludes domain "xvideos.com" ||
     jsIncludes url "adult" || jsIncludes url "xxx" then
    { type := "inappropriate_content",
      title := "Inappropriate Content Access Detected",
      description := "Employee accessed inappropriate content: " ++ a.domain,
      severity := "critical" }
  else
    { type := "unauthorized_website",
      title := "Unauthorized Website Access",
      description := "Employee accessed unauthorized website: " ++ a.url,
      severity := "medium" }

/-- Handler configuration (`this.config`): flush interval 30 s, violation
cooldown 60 s, buffer cap 100. -/
def activityFlushInterval : Nat := 30000

/-- `this.config.violationCooldown` (milliseconds). -/
def violationCooldown : Nat := 60000

/-- `this.config.maxActivityBuffer`. -/
def maxActivityBuffer : Nat := 100

/-- One entry of `this.activeSessions` (keyed by employee id). -/
structure Session where
  sessionId : String
  socketId : String
  startTime : Nat
  lastActivity : Option Activity
  violationCount : Nat
  lastViolationTime : Option Nat
deriving DecidableEq, Repr

/-- One buffered telemetry record, as built by `handleActivityUpdate`,
`handleVisibilityChange` and `handleFocusChange` respectively. -/
inductive ActivityRecord where
  | browser (employee sessionId : String) (timestamp : Nat) (url : String)
      (title : Option String) (domain path userAgent : String)
      (isActive : Bool)
  | visibility (employee sessionId : String) (timestamp : Nat)
      (isVisible : Bool)
  | focus (employee sessionId : String) (timestamp : Nat) (hasFocus : Bool)
deriving DecidableEq, Repr

/-- The record `handleActivityUpdate` pushes onto the buffer. -/
def browserActivityRecord (emp sid : String) (a : Activity) : ActivityRecord :=
  .browser emp sid a.timestamp a.url a.title a.domain a.path a.userAgent
    a.isActive

/-- The record `handleVisibilityChange` pushes onto the buffer. -/
def visibilityRecord (emp sid : String) (ts : Nat) (isVisible : Bool) :
    ActivityRecord :=
  .visibility emp sid ts isVisible

/-- The record `handleFocusChange` pushes onto the buffer. -/
def focusRecord (emp sid : String) (ts : Nat) (hasFocus : Bool) :
    ActivityRecord :=
  .focus emp sid ts hasFocus

/-- `Map.get`: first binding for the key in an association list
(JavaScript `Map` keys are unique, so first = only). -/
def mapFind {α : Type} (m : List (String × α)) (k : String) : Option α :=
  match m with
  | [] => none
  | (k', v) :: rest => if k' = k then some v else mapFind rest k

/-- `Map.set`: replace the existing binding in place, or append. -/
def mapSet {α : Type} (m : List (String × α)) (k : String) (v : α) :
    List (String × α) :=
  match m with
  | [] => [(k, v)]
  | (k', v') :: rest =>
      if k' = k then (k, v) :: rest else (k', v') :: mapSet rest k v

/-- `Map.delete`: remove the binding for the key. -/
def mapErase {α : Type} (m : List (String × α)) (k : String) :
    List (String × α) :=
  match m with
  | [] => []
  | (k', v') :: rest =>
      if k' = k then rest else (k', v') :: mapErase rest k

/-- The handler's mutable state plus the append-only persistence and
outbound side effects its handlers perform: `activeSessions` and
`activityBuffer` are the two `Map`s, `persistedBatches` records each
successful `EmployeeActivity.insertMany` batch in order,
`alerts` the saved `MonitoringAlert` documents, and `captureRequests` the
`capture_violation` instructions emitted to clients. -/
structure HandlerState where
  activeSessions : List (String × Session)
  activityBuffer : List (String × List ActivityRecord)
  persistedBatches : List (List ActivityRecord)
  alerts : List (String × AlertConfig)
  captureRequests : List String
deriving DecidableEq, Repr

/-- `flushActivities(employeeId)`: read the buffer entry; return unchanged
when missing or empty; otherwise persist the whole list as one
`insertMany` batch and reset the entry to `[]` — unless persistence fails
(`persistOk = false`), in which case the error is caught and logged and the
state is left untouched. -/
def flushActivities (persistOk : Bool) (emp : String) (st : HandlerState) :
    HandlerState :=
  match mapFind st.activityBuffer emp with
  | none => st
  | some acts =>
    if acts.isEmpty then st
    else if persistOk then
      { st with
        persistedBatches := st.persistedBatches ++ [acts],
        activityBuffer := mapSet st.activityBuffer emp [] }
    else st

/-- The cooldown test of `handlePotentialViolation`:
`session.lastViolationTime && (now - session.lastViolationTime) <
this.config.violationCooldown`.  In JavaScript both `null` and the number
`0` are falsy, so a missing stamp and a zero stamp alike defeat the test:
a session whose last violation was stamped at epoch 0 is never in
cooldown. -/
def inCooldownAt (s : Session) (now : Nat) : Bool :=
  match s.lastViolationTime with
  | none => false
  | some t => if t = 0 then false else decide (now - t < violationCooldown)

/-- `handlePotentialViolation(employeeId, activity, violationType)`:
no-op without a session; no-op (skip) inside the cooldown window measured
from the last allowed violation; otherwise bump the counter, stamp the
time, emit a capture request when a socket for the employee exists
(`ioAvail`), and persist an alert built by `getAlertConfig`. -/
def handlePotentialViolation (ioAvail : Bool) (now : Nat) (emp : String)
    (a : Activity) (violationType : String) (st : HandlerState) :
    HandlerState :=
  match mapFind st.activeSessions emp with
  | none => st
  | some s =>
    if inCooldownAt s now then st
    else
      let s' := { s with violationCount := s.violationCount + 1,
                         lastViolationTime := some now }
      { st with
        activeSessions := mapSet st.activeSessions emp s',
        captureRequests :=
          if ioAvail then st.captureRequests ++ [emp]
          else st.captureRequests,
        alerts := st.alerts ++ [(emp, getAlertConfig violationType a)] }

/-- `checkActivityCompliance(employeeId, activity)`: whitelist first
(return, leaving everything untouched); otherwise classify and hand any
violation verdict to `handlePotentialViolation` with the matching
violation-type tag. -/
def checkActivityCompliance (wl : List WhitelistEntry) (ioAvail : Bool)
    (now : Nat) (emp : String) (a : Activity) (st : HandlerState) :
    HandlerState :=
  if wl.any (fun e => matchesWhitelist e a) then st
  else if isExplicitViolation a || !(isWorkRelatedActivity a) then
    handlePotentialViolation ioAvail now emp a
      (if isExplicitViolation a then "explicit_violation"
       else "non_work_activity") st
  else st

/-- `handleActivityUpdate(socket, data)`: drop without a session; record
the last activity on the session; push a browser record onto the buffer
(when the buffer entry is missing the JavaScript `.push` on `undefined`
throws and the outer catch ends the handler with only the session
updated); force a flush when the buffer reaches `maxActivityBuffer`; then
run the compliance check. -/
def handleActivityUpdate (wl : List WhitelistEntry) (ioAvail persistOk : Bool)
    (now : Nat) (emp sid : String) (a : Activity) (st : HandlerState) :
    HandlerState :=
  match mapFind st.activeSessions emp with
  | none => st
  | some s =>
    let st1 := { st with
      activeSessions :=
        mapSet st.activeSessions emp { s with lastActivity := some a } }
    match mapFind st1.activityBuffer emp with
    | none => st1
    | some buf =>
      let buf' := buf ++ [browserActivityRecord emp sid a]
      let st2 := { st1 with activityBuffer := mapSet st1.activityBuffer emp buf' }
      let st3 :=
        if maxActivityBuffer ≤ buf'.length then
          flushActivities persistOk emp st2
        else st2
      checkActivityCompliance wl ioAvail now emp a st3

/-- `handleVisibilityChange(socket, data)`: build a visibility record
(session id defaulting to `'unknown'`) and push it — with no size check
and no flush — provided the buffer entry exists. -/
def handleVisibilityChange (emp : String) (isVisible : Bool) (ts : Nat)
    (st : HandlerState) : HandlerState :=
  let sid := (mapFind st.activeSessions emp).elim "unknown" (·.sessionId)
  let record := visibilityRecord emp sid ts isVisible
  match mapFind st.activityBuffer emp with
  | none => st
  | some buf =>
    { st with activityBuffer := mapSet st.activityBuffer emp (buf ++ [record]) }

/-- `handleFocusChange(socket, data)`: same shape as the visibility
handler with a focus record. -/
def handleFocusChange (emp : String) (hasFocus : Bool) (ts : Nat)
    (st : HandlerState) : HandlerState :=
  let sid := (mapFind st.activeSessions emp).elim "unknown" (·.sessionId)
  let record := focusRecord emp sid ts hasFocus
  match mapFind st.activityBuffer emp with
  | none => st
  | some buf =>
    { st with activityBuffer := mapSet st.activityBuffer emp (buf ++ [record]) }

/-- `handleMonitoringStopped(socket, data)`: final flush, then delete both
the session entry and the buffer entry. -/
def handleMonitoringStopped (persistOk : Bool) (emp : String)
    (st : HandlerState) : HandlerState :=
  let st1 := flushActivities persistOk emp st
  { st1 with
    activeSessions := mapErase st1.activeSessions emp,
    activityBuffer := mapErase st1.activityBuffer emp }

/-- `handleClientDisconnect(socket)`: scan `activeSessions` for the first
entry whose `socketId` matches the closed socket, flush that employee's
buffer and delete the session entry, then `break` — the buffer entry is
not deleted. -/
def handleClientDisconnect (persistOk : Bool) (sockId : String)
    (st : HandlerState) : HandlerState :=
  match st.activeSessions.find? (fun p => p.2.socketId == sockId) with
  | none => st
  | some (emp, _) =>
    let st1 := flushActivities persistOk emp st
    { st1 with activeSessions := mapErase st1.activeSessions emp }

/-- The `metadata` object of a `client-screenshot-captured` event.  The
timestamp is carried as an uninterpreted string; `Date` parsing is a
parameter of the handler model. -/
structure CaptureMetadata where
  timestamp : Option String
  url : Option String
  title : Option String
  width : Option Nat
  height : Option Nat
deriving DecidableEq, Repr

/-- The payload of a `client-screenshot-captured` event; the four
`Option` fields model the presence check
`!employeeId || !sessionId || !imageData || !metadata`. -/
structure ScreenshotData where
  employeeId : Option String
  sessionId : Option String
  trigger : String
  imageData : Option String
  metadata : Option CaptureMetadata
deriving DecidableEq, Repr

/-- The Cloudinary collaborator's (successful) response, read defensively
by the handler. -/
structure UploadResult where
  cloudinary_url : String
  cloudinary_public_id : String
  file_size : Option Nat
  width : Option Nat
  height : Option Nat
deriving DecidableEq, Repr

/-- The AI collaborator's analysis result shape.  Confidences are exact
decimals in the source (0.5, 0.8), modelled losslessly as integer
percentages. -/
structure AIAnalysis where
  confidencePercent : Nat
  isViolation : Bool
  violationType : String
  description : String
deriving DecidableEq, Repr

/-- The analysis sub-object `analyzeViolationScreenshot` writes back onto
the capture record (`metadata.ai_analysis` and `metadata.ocr_analysis`). -/
structure AnalysisOutcome where
  confidencePercent : Nat
  activityType : String
  activityDescription : String
  alertReason : String
  ocrText : String
  ocrConfidencePercent : Nat
deriving DecidableEq, Repr

/-- `analyzeViolationScreenshot`: OCR then AI, each best-effort.  A `none`
collaborator result models a missing service, an unimplemented method, or
a thrown error — all caught and logged by the source — in which case the
hard-coded defaults (empty OCR text; AI confidence 0.5, assumed violation)
are used.  The function itself never fails: its whole body is wrapped in a
try/catch. -/
def analyzeViolationScreenshot (ocrResult : Option String)
    (aiResult : Option AIAnalysis) : AnalysisOutcome :=
  let ocrText := ocrResult.getD ""
  let ai := aiResult.getD
    { confidencePercent := 50, isViolation := true,
      violationType := "unauthorized_access",
      description := "Policy violation detected" }
  { confidencePercent := ai.confidencePercent,
    activityType := if ai.isViolation then "violation" else "normal",
    activityDescription := ai.description,
    alertReason := ai.violationType,
    ocrText := ocrText,
    ocrConfidencePercent := 80 }

/-- The `ScreenCapture` document saved by `handleScreenshotCaptured`
(the fields the claims are about). -/
structure CaptureRecord where
  employee : String
  sessionId : String
  file_path : String
  file_hash : String
  capture_trigger : String
  timestamp : Nat
  url : String
  title : String
  width : Nat
  height : Nat
deriving DecidableEq, Repr

/-- The per-field presence flags the handler puts in the
`screenshot-error` response's `details`. -/
structure ErrorDetails where
  hasEmployeeId : Bool
  hasSessionId : Bool
  hasImageData : Bool
  hasMetadata : Bool
deriving DecidableEq, Repr

/-- One observable step of `handleScreenshotCaptured`, in execution
order: the Cloudinary upload (violation or regular variant), the
`ScreenCapture.save`, the awaited analysis call, and the two possible
acknowledgments. -/
inductive ScreenshotEffect where
  | upload (violationVariant : Bool)
  | saveCapture (c : CaptureRecord)
  | analyze (o : AnalysisOutcome)
  | ackSuccess
  | ackError (details : ErrorDetails)
deriving DecidableEq, Repr

/-- The timestamp normalization of `handleScreenshotCaptured`:
`metadata.timestamp ? new Date(metadata.timestamp) : new Date()`, replaced
by `new Date()` again when the parse is invalid.  `parseDate` stands for
JavaScript `Date` parsing (`none` = invalid date), `now` for the ingestion
instant. -/
def normalizeTimestamp (parseDate : String → Option Nat) (now : Nat)
    (ts : Option String) : Nat :=
  match ts with
  | none => now
  | some s => (parseDate s).getD now

/-- `handleScreenshotCaptured(socket, data)` as the ordered list of its
observable effects.  Validation runs before anything else; a missing
required field throws, and the catch block emits `screenshot-error` with
one presence flag per field.  On the success path (collaborator upload and
save modelled as succeeding): upload, save the capture record, await the
analysis when the trigger is `violation`, then acknowledge. -/
def handleScreenshotCaptured (parseDate : String → Option Nat) (now : Nat)
    (upload : UploadResult) (ocrResult : Option String)
    (aiResult : Option AIAnalysis) (d : ScreenshotData) :
    List ScreenshotEffect :=
  if d.employeeId.isNone || d.sessionId.isNone || d.imageData.isNone ||
     d.metadata.isNone then
    [ .ackError
        { hasEmployeeId := d.employeeId.isSome,
          hasSessionId := d.sessionId.isSome,
          hasImageData := d.imageData.isSome,
          hasMetadata := d.metadata.isSome } ]
  else
    let md := d.metadata.getD
      { timestamp := none, url := none, title := none,
        width := none, height := none }
    let isViolation := d.trigger = "violation"
    let cap : CaptureRecord :=
      { employee := d.employeeId.getD "",
        sessionId := d.sessionId.getD "",
        file_path := upload.cloudinary_url,
        file_hash := upload.cloudinary_public_id,
        capture_trigger :=
          if isViolation then "unauthorized_access" else "manual",
        timestamp := normalizeTimestamp parseDate now md.timestamp,
        url := md.url.getD "unknown",
        title := md.title.getD "Unknown Application",
        width := upload.width.getD (md.width.getD 1920),
        height := upload.height.getD (md.height.getD 1080) }
    [ .upload isViolation, .saveCapture cap ] ++
    (if isViolation then
        [ .analyze (analyzeViolationScreenshot ocrResult aiResult) ]
      else []) ++
    [ .ackSuccess ]

/-- The timestamps of the capture records saved in a trace. -/
def savedTimestamps : List ScreenshotEffect → List Nat
  | [] => []
  | .saveCapture c :: rest => c.timestamp :: savedTimestamps rest
  | _ :: rest => savedTimestamps rest

/-- The per-trigger capture bookkeeping of `ScreenCaptureService`
(`captureConfig`). -/
structure CaptureConfig where
  employeeId : String
  sessionId : String
  lastCaptureHash : Option String
  captureCount : Nat
deriving DecidableEq, Repr

/-- The `ScreenCapture` document saved by the service's `captureScreen`
(the fields the delta-skip claim is about). -/
structure ServiceCaptureRecord where
  employee : String
  sessionId : String
  file_hash : String
  capture_trigger : String
  is_delta : Bool
  timestamp : Nat
deriving DecidableEq, Repr

/-- Observable steps of `ScreenCaptureService.captureScreen`. -/
inductive ServiceEffect where
  | upload
  | saveRecord (r : ServiceCaptureRecord)
deriving DecidableEq, Repr

/-- `captureScreen(captureConfig, trigger, metadata)`: after taking (or
synthesizing) the screenshot and hashing it (`currentHash` is that MD5),
the delta check `lastCaptureHash === currentHash && trigger === 'scheduled'`
returns `null` with no upload and no persisted record; otherwise the image
is uploaded, the record saved (`is_delta` when a previous capture exists),
and the config's hash and count updated. -/
def captureScreen (cfg : CaptureConfig) (trigger currentHash : String)
    (now : Nat) (prevCaptureExists : Bool) :
    Option ServiceCaptureRecord × List ServiceEffect × CaptureConfig :=
  if cfg.lastCaptureHash == some currentHash && trigger == "scheduled" then
    (none, [], cfg)
  else
    let record : ServiceCaptureRecord :=
      { employee := cfg.employeeId, sessionId := cfg.sessionId,
        file_hash := currentHash, capture_trigger := trigger,
        is_delta := prevCaptureExists, timestamp := now }
    (some record, [.upload, .saveRecord record],
      { cfg with lastCaptureHash := some currentHash,
                 captureCount := cfg.captureCount + 1 })

/-! ### Shared lemmas about the map operations and the handlers -/

theorem mapFind_mapSet {α : Type} (m : List (String × α)) (k : String)
    (v : α) : mapFind (mapSet m k v) k = some v := by
  induction m with
  | nil => simp [mapSet, mapFind]
  | cons p rest ih =>
      obtain ⟨k', v'⟩ := p
      by_cases h : k' = k
      · simp [mapSet, mapFind, h]
      · simp [mapSet, mapFind, h, ih]

theorem flushActivities_activeSessions (ok : Bool) (emp : String)
    (st : HandlerState) :
    (flushActivities ok emp st).activeSessions = st.activeSessions := by
  unfold flushActivities
  cases h : mapFind st.activityBuffer emp with
  | none => rfl
  | some acts =>
      cases h1 : acts.isEmpty <;> cases ok <;> simp [h1]

theorem flushActivities_alerts (ok : Bool) (emp : String)
    (st : HandlerState) :
    (flushActivities ok emp st).alerts = st.alerts := by
  unfold flushActivities
  cases h : mapFind st.activityBuffer emp with
  | none => rfl
  | some acts =>
      cases h1 : acts.isEmpty <;> cases ok <;> simp [h1]

theorem flushActivities_captureRequests (ok : Bool) (emp : String)
    (st : HandlerState) :
    (flushActivities ok emp st).captureRequests = st.captureRequests := by
  unfold flushActivities
  cases h : mapFind st.activityBuffer emp with
  | none => rfl
  | some acts =>
      cases h1 : acts.isEmpty <;> cases ok <;> simp [h1]

theorem inCooldownAt_fresh {s : Session} (now : Nat)
    (h : s.lastViolationTime = none) : inCooldownAt s now = false := by
  simp [inCooldownAt, h]

theorem inCooldownAt_stamped {s : Session} {t : Nat} (now : Nat)
    (h : s.lastViolationTime = some t) (hpos : t ≠ 0) :
    inCooldownAt s now = decide (now - t < violationCooldown) := by
  simp [inCooldownAt, h, hpos]

theorem inCooldownAt_zero_stamp {s : Session} (now : Nat)
    (h : s.lastViolationTime = some 0) : inCooldownAt s now = false := by
  simp [inCooldownAt, h]

theorem handlePotentialViolation_skip {st : HandlerState} {emp : String}
    {s : Session} (ioAvail : Bool) (now : Nat) (a : Activity) (v : String)
    (hs : mapFind st.activeSessions emp = some s)
    (hc : inCooldownAt s now = true) :
    handlePotentialViolation ioAvail now emp a v st = st := by
  simp [handlePotentialViolation, hs, hc]

theorem handlePotentialViolation_allowed {st : HandlerState} {emp : String}
    {s : Session} (ioAvail : Bool) (now : Nat) (a : Activity) (v : String)
    (hs : mapFind st.activeSessions emp = some s)
    (hc : inCooldownAt s now = false) :
    handlePotentialViolation ioAvail now emp a v st =
      { st with
        activeSessions := mapSet st.activeSessions emp
          { s with violationCount := s.violationCount + 1,
                   lastViolationTime := some now },
        captureRequests :=
          if ioAvail then st.captureRequests ++ [emp]
          else st.captureRequests,
        alerts := st.alerts ++ [(emp, getAlertConfig v a)] } := by
  simp [handlePotentialViolation, hs, hc]

theorem handlePotentialViolation_activityBuffer (ioAvail : Bool) (now : Nat)
    (emp : String) (a : Activity) (v : String) (st : HandlerState) :
    (handlePotentialViolation ioAvail now emp a v st).activityBuffer =
      st.activityBuffer := by
  unfold handlePotentialViolation
  cases h : mapFind st.activeSessions emp with
  | none => rfl
  | some s => cases hc : inCooldownAt s now <;> simp [hc]

theorem handlePotentialViolation_persistedBatches (ioAvail : Bool)
    (now : Nat) (emp : String) (a : Activity) (v : String)
    (st : HandlerState) :
    (handlePotentialViolation ioAvail now emp a v st).persistedBatches =
      st.persistedBatches := by
  unfold handlePotentialViolation
  cases h : mapFind st.activeSessions emp with
  | none => rfl
  | some s => cases hc : inCooldownAt s now <;> simp [hc]

theorem checkActivityCompliance_activityBuffer (wl : List WhitelistEntry)
    (ioAvail : Bool) (now : Nat) (emp : String) (a : Activity)
    (st : HandlerState) :
    (checkActivityCompliance wl ioAvail now emp a st).activityBuffer =
      st.activityBuffer := by
  unfold checkActivityCompliance
  split
  · rfl
  · split
    · exact handlePotentialViolation_activityBuffer ..
    · rfl

theorem checkActivityCompliance_persistedBatches (wl : List WhitelistEntry)
    (ioAvail : Bool) (now : Nat) (emp : String) (a : Activity)
    (st : HandlerState) :
    (checkActivityCompliance wl ioAvail now emp a st).persistedBatches =
      st.persistedBatches := by
  unfold checkActivityCompliance
  split
  · rfl
  · split
    · exact handlePotentialViolation_persistedBatches ..
    · rfl

/-! ### Concrete fixtures used by witnesses and counterexamples -/

/-- A whitelist holding exactly one allow-entry for `facebook.com`. -/
def fbWhitelist : List WhitelistEntry :=
  [ { url := "https://facebook.com", domain := "facebook.com" } ]

/-- An activity on `facebook.com` that matches the violation domain set,
the violation URL patterns, and the violation keyword list all at once. -/
def fbActivity : Activity :=
  { url := "https://facebook.com/watch", domain := "facebook.com",
    title := some "Funny game stream", path := "/watch", isActive := true,
    userAgent := "UA", timestamp := 1 }

/-- A session fresh out of `handleMonitoringStarted`. -/
def freshSession : Session :=
  { sessionId := "sid1", socketId := "sock1", startTime := 0,
    lastActivity := none, violationCount := 0, lastViolationTime := none }

/-- A handler state with one active session for employee `e1` and an
empty buffer entry, as `handleMonitoringStarted` leaves it. -/
def startedState : HandlerState :=
  { activeSessions := [("e1", freshSession)],
    activityBuffer := [("e1", [])],
    persistedBatches := [], alerts := [], captureRequests := [] }

/-- The unlisted shopping activity of the spec's scenario: domain
`example-shop.com`, title "Flash Sale". -/
def exampleShopActivity : Activity :=
  { url := "https://example-shop.com", domain := "example-shop.com",
    title := some "Flash Sale", path := "/", isActive := true,
    userAgent := "UA", timestamp := 1 }

/-- Two buffered records in enqueue order. -/
def c4RecordA : ActivityRecord :=
  browserActivityRecord "e1" "sid1" fbActivity

/-- Second enqueued record. -/
def c4RecordB : ActivityRecord :=
  visibilityRecord "e1" "sid1" 7 false

/-- A state whose `e1` buffer holds the two records in enqueue order. -/
def c4State : HandlerState :=
  { activeSessions := [("e1", freshSession)],
    activityBuffer := [("e1", [c4RecordA, c4RecordB])],
    persistedBatches := [], alerts := [], captureRequests := [] }

/-! ### C1 — whitelist precedence -/

/-- C1: for every activity matching some whitelist entry (by exact URL,
exact domain, or the case-insensitive domain regex), the compliance check
leaves the handler state completely unchanged — no violation is recorded,
no alert is persisted, no capture request is emitted — regardless of what
the explicit-violation domain set, URL patterns or keyword list would say
about the activity: the whitelist check runs first and returns. -/
theorem whitelist_precedence (wl : List WhitelistEntry) (ioAvail : Bool)
    (now : Nat) (emp : String) (a : Activity) (st : HandlerState)
    (h : wl.any (fun e => matchesWhitelist e a) = true) :
    checkActivityCompliance wl ioAvail now emp a st = st := by
  simp [checkActivityCompliance, h]

/-- Witness for C1: the `facebook.com` activity matches the whitelist
entry, and it also matches the explicit-violation rules, yet the
compliance check changes nothing. -/
theorem whitelist_precedence_witness :
    (fbWhitelist.any (fun e => matchesWhitelist e fbActivity) = true) ∧
    isExplicitViolation fbActivity = true ∧
    checkActivityCompliance fbWhitelist true 1000 "e1" fbActivity
      startedState = startedState :=
  ⟨by decide, by decide,
    whitelist_precedence fbWhitelist true 1000 "e1" fbActivity startedState
      (by decide)⟩

/-! ### C2 — unlisted shopping domain with keyword "sale" -/

/-- C2 counterexample: for the spec's own scenario input — unlisted domain
`example-shop.com`, title "Flash Sale" — `getAlertConfig` does not put the
alert in the shopping category: its shopping branch requires the domain to
contain `amazon.com`, `ebay.com`, `etsy.com` or `walmart.com`, so the
activity falls through to the default configuration. -/
theorem exampleShop_not_shopping_category :
    (getAlertConfig "explicit_violation" exampleShopActivity).type ≠
      "shopping_access" := by decide

/-- C2 amended: the `example-shop.com` activity is an explicit violation
via the keyword check alone (the domain and URL-pattern checks both miss),
and the resulting alert gets the default `unauthorized_website`
configuration with severity `medium`, not the shopping category. -/
theorem exampleShop_keyword_violation_default_alert :
    violationDomainMatch exampleShopActivity = false ∧
    violationUrlPatternMatch exampleShopActivity = false ∧
    violationKeywordMatch exampleShopActivity = true ∧
    isExplicitViolation exampleShopActivity = true ∧
    getAlertConfig "explicit_violation" exampleShopActivity =
      { type := "unauthorized_website",
        title := "Unauthorized Website Access",
        description :=
          "Employee accessed unauthorized website: https://example-shop.com",
        severity := "medium" } := by decide

/-! ### C3 — violation cooldown -/

/-- C3: for a subject with an active session and no prior violation, a
first violation verdict at `t1` persists exactly one alert and updates the
session's violation counter and last-violation timestamp; a second verdict
at `t2` within the cooldown window changes nothing at all (no alert, no
session change, no capture request); a third verdict at `t3` at or after
the window's end persists a second alert.  `t1 ≠ 0` because the source
stamps `Date.now()` values, which are positive; a zero stamp would be
falsy and disable the cooldown test entirely. -/
theorem violation_cooldown_single_alert (ioAvail : Bool) (t1 t2 t3 : Nat)
    (emp : String) (a1 a2 a3 : Activity) (v1 v2 v3 : String)
    (st : HandlerState) (s : Session)
    (hs : mapFind st.activeSessions emp = some s)
    (hfresh : s.lastViolationTime = none)
    (hpos : t1 ≠ 0)
    (h12 : t2 - t1 < violationCooldown)
    (h13 : violationCooldown ≤ t3 - t1) :
    (handlePotentialViolation ioAvail t1 emp a1 v1 st).alerts.length =
        st.alerts.length + 1 ∧
    mapFind (handlePotentialViolation ioAvail t1 emp a1 v1 st).activeSessions
        emp =
      some { s with violationCount := s.violationCount + 1,
                    lastViolationTime := some t1 } ∧
    handlePotentialViolation ioAvail t2 emp a2 v2
        (handlePotentialViolation ioAvail t1 emp a1 v1 st) =
      handlePotentialViolation ioAvail t1 emp a1 v1 st ∧
    (handlePotentialViolation ioAvail t3 emp a3 v3
        (handlePotentialViolation ioAvail t2 emp a2 v2
          (handlePotentialViolation ioAvail t1 emp a1 v1 st))).alerts.length =
      st.alerts.length + 2 := by
  have hc1 : inCooldownAt s t1 = false := inCooldownAt_fresh t1 hfresh
  have hst1 := handlePotentialViolation_allowed ioAvail t1 a1 v1 hs hc1
  have hfind1 :
      mapFind (handlePotentialViolation ioAvail t1 emp a1 v1 st).activeSessions
        emp =
      some { s with violationCount := s.violationCount + 1,
                    lastViolationTime := some t1 } := by
    rw [hst1]
    exact mapFind_mapSet ..
  have hc2 : inCooldownAt
      { s with violationCount := s.violationCount + 1,
               lastViolationTime := some t1 } t2 = true := by
    rw [inCooldownAt_stamped t2 rfl hpos]
    exact decide_eq_true h12
  have hc3 : inCooldownAt
      { s with violationCount := s.violationCount + 1,
               lastViolationTime := some t1 } t3 = false := by
    rw [inCooldownAt_stamped t3 rfl hpos]
    exact decide_eq_false (Nat.not_lt.mpr h13)
  have hst2 := handlePotentialViolation_skip ioAvail t2 a2 v2 hfind1 hc2
  refine ⟨?_, hfind1, hst2, ?_⟩
  · rw [hst1]
    simp
  · rw [hst2]
    have hst3 := handlePotentialViolation_allowed ioAvail t3 a3 v3 hfind1 hc3
    rw [hst3, hst1]
    simp

/-- Witness for C3: employee `e1` with a fresh session, violations at
1 000 ms, 31 000 ms (inside the 60 000 ms window) and 61 000 ms (at the
window's end). -/
theorem violation_cooldown_single_alert_witness :
    (handlePotentialViolation true 1000 "e1" fbActivity
        "explicit_violation" startedState).alerts.length =
      startedState.alerts.length + 1 ∧
    mapFind (handlePotentialViolation true 1000 "e1" fbActivity
        "explicit_violation" startedState).activeSessions "e1" =
      some { freshSession with
               violationCount := freshSession.violationCount + 1,
               lastViolationTime := some 1000 } ∧
    handlePotentialViolation true 31000 "e1" fbActivity
        "explicit_violation"
        (handlePotentialViolation true 1000 "e1" fbActivity
          "explicit_violation" startedState) =
      handlePotentialViolation true 1000 "e1" fbActivity
        "explicit_violation" startedState ∧
    (handlePotentialViolation true 61000 "e1" fbActivity
        "explicit_violation"
        (handlePotentialViolation true 31000 "e1" fbActivity
          "explicit_violation"
          (handlePotentialViolation true 1000 "e1" fbActivity
            "explicit_violation" startedState))).alerts.length =
      startedState.alerts.length + 2 :=
  violation_cooldown_single_alert true 1000 31000 61000 "e1" fbActivity
    fbActivity fbActivity "explicit_violation" "explicit_violation"
    "explicit_violation" startedState freshSession (by decide) (by decide)
    (by decide) (by decide) (by decide)

/-! ### C4 — flush atomicity -/

/-- C4: with `acts` the records enqueued (in order) for a subject, a
successful flush persists exactly that list as one batch and resets the
buffer entry to empty; a failed persist leaves the whole state unchanged
(and the embedding's totality reflects that the error is caught, not
raised); consequently retrying after a failure persists the same batch
once — no duplicates and no loss. -/
theorem flush_batch_atomicity (emp : String) (st : HandlerState)
    (acts : List ActivityRecord)
    (hb : mapFind st.activityBuffer emp = some acts)
    (hne : acts ≠ []) :
    (flushActivities true emp st).persistedBatches =
        st.persistedBatches ++ [acts] ∧
    mapFind (flushActivities true emp st).activityBuffer emp = some [] ∧
    flushActivities false emp st = st ∧
    flushActivities true emp (flushActivities false emp st) =
      flushActivities true emp st := by
  have hempty : acts.isEmpty = false := by
    cases acts with
    | nil => exact absurd rfl hne
    | cons a rest => rfl
  refine ⟨?_, ?_, ?_, ?_⟩
  · simp [flushActivities, hb, hempty]
  · simp only [flushActivities, hb, hempty]
    simp only [Bool.false_eq_true, if_false, if_true]
    exact mapFind_mapSet ..
  · simp [flushActivities, hb, hempty]
  · rw [show flushActivities false emp st = st by
      simp [flushActivities, hb, hempty]]

/-- Witness for C4: a buffer with two records flushes them as one ordered
batch; the failing flush is the identity. -/
theorem flush_batch_atomicity_witness :
    (flushActivities true "e1" c4State).persistedBatches =
        c4State.persistedBatches ++ [[c4RecordA, c4RecordB]] ∧
    mapFind (flushActivities true "e1" c4State).activityBuffer "e1" =
        some [] ∧
    flushActivities false "e1" c4State = c4State ∧
    flushActivities true "e1" (flushActivities false "e1" c4State) =
      flushActivities true "e1" c4State :=
  flush_batch_atomicity "e1" c4State [c4RecordA, c4RecordB] (by decide)
    (by decide)

/-! ### C5 — size-triggered flush -/

/-- A filler record for buffer-cap fixtures. -/
def fillerRecord : ActivityRecord := focusRecord "e1" "sid1" 0 true

/-- A state whose `e1` buffer already holds exactly `maxActivityBuffer`
(= 100) records. -/
def fullState : HandlerState :=
  { activeSessions := [("e1", freshSession)],
    activityBuffer := [("e1", List.replicate 100 fillerRecord)],
    persistedBatches := [], alerts := [], captureRequests := [] }

/-- A state whose `e1` buffer holds 99 records, one below the cap. -/
def nearFullState : HandlerState :=
  { activeSessions := [("e1", freshSession)],
    activityBuffer := [("e1", List.replicate 99 fillerRecord)],
    persistedBatches := [], alerts := [], captureRequests := [] }

/-- C5 counterexample: a visibility-change enqueue onto a buffer already
at the 100-record cap leaves the buffer at 101 records — strictly longer
than the configured maximum — and triggers no flush (nothing is
persisted): the size check exists only in `handleActivityUpdate`. -/
theorem visibility_enqueue_exceeds_cap :
    ((mapFind (handleVisibilityChange "e1" false 5 fullState).activityBuffer
        "e1").getD []).length = 101 ∧
    maxActivityBuffer < 101 ∧
    (handleVisibilityChange "e1" false 5 fullState).persistedBatches =
      [] := by decide

/-- C5 amended: the size-triggered flush applies only to activity-update
enqueues — with successful persistence, an activity update leaves the
subject's buffer either below the cap or freshly emptied, hence never
longer than `maxActivityBuffer`; visibility-change and focus-change
enqueues append unconditionally, with no size check and no flush. -/
theorem size_flush_only_for_activity_updates (wl : List WhitelistEntry)
    (ioAvail : Bool) (now : Nat) (emp sid : String) (a : Activity)
    (st : HandlerState) (s : Session) (buf : List ActivityRecord)
    (hs : mapFind st.activeSessions emp = some s)
    (hb : mapFind st.activityBuffer emp = some buf) :
    mapFind (handleActivityUpdate wl ioAvail true now emp sid a
        st).activityBuffer emp =
      some (if maxActivityBuffer ≤ buf.length + 1 then []
            else buf ++ [browserActivityRecord emp sid a]) ∧
    (∀ l, mapFind (handleActivityUpdate wl ioAvail true now emp sid a
        st).activityBuffer emp = some l → l.length ≤ maxActivityBuffer) ∧
    (∀ (emp2 : String) (vis : Bool) (ts : Nat) (st2 : HandlerState)
        (l2 : List ActivityRecord),
        mapFind st2.activityBuffer emp2 = some l2 →
        (handleVisibilityChange emp2 vis ts st2).activityBuffer =
          mapSet st2.activityBuffer emp2 (l2 ++
            [visibilityRecord emp2
              ((mapFind st2.activeSessions emp2).elim "unknown"
                (fun x => x.sessionId)) ts vis]) ∧
        (handleVisibilityChange emp2 vis ts st2).persistedBatches =
          st2.persistedBatches) ∧
    (∀ (emp2 : String) (hf : Bool) (ts : Nat) (st2 : HandlerState)
        (l2 : List ActivityRecord),
        mapFind st2.activityBuffer emp2 = some l2 →
        (handleFocusChange emp2 hf ts st2).activityBuffer =
          mapSet st2.activityBuffer emp2 (l2 ++
            [focusRecord emp2
              ((mapFind st2.activeSessions emp2).elim "unknown"
                (fun x => x.sessionId)) ts hf]) ∧
        (handleFocusChange emp2 hf ts st2).persistedBatches =
          st2.persistedBatches) := by
  have hne : (buf ++ [browserActivityRecord emp sid a]).isEmpty = false := by
    cases buf <;> rfl
  have hmain : mapFind (handleActivityUpdate wl ioAvail true now emp sid a
      st).activityBuffer emp =
      some (if maxActivityBuffer ≤ buf.length + 1 then []
            else buf ++ [browserActivityRecord emp sid a]) := by
    simp only [handleActivityUpdate, hs, hb, List.length_append,
      List.length_cons, List.length_nil, Nat.zero_add]
    by_cases hlen : maxActivityBuffer ≤ buf.length + 1
    · rw [if_pos hlen, if_pos hlen, checkActivityCompliance_activityBuffer]
      simp only [flushActivities, mapFind_mapSet, hne]
      simp only [Bool.false_eq_true, if_false, if_true]
      exact mapFind_mapSet ..
    · rw [if_neg hlen, if_neg hlen, checkActivityCompliance_activityBuffer]
      exact mapFind_mapSet ..
  refine ⟨hmain, ?_, ?_, ?_⟩
  · intro l hl
    rw [hmain, Option.some.injEq] at hl
    subst hl
    split
    · simp [maxActivityBuffer]
    · rename_i hlen
      simp only [List.length_append, List.length_cons, List.length_nil,
        Nat.zero_add]
      omega
  · intro emp2 vis ts st2 l2 hb2
    constructor
    · simp only [handleVisibilityChange, hb2]
    · simp only [handleVisibilityChange, hb2]
  · intro emp2 hf ts st2 l2 hb2
    constructor
    · simp only [handleFocusChange, hb2]
    · simp only [handleFocusChange, hb2]

/-- Witness for C5 (amended): an activity update onto a 99-record buffer
flushes it to empty; a visibility change onto a 100-record buffer appends
a 101st record with no flush. -/
theorem size_flush_only_for_activity_updates_witness :
    mapFind (handleActivityUpdate [] true true 0 "e1" "sid1" fbActivity
        nearFullState).activityBuffer "e1" = some [] ∧
    (handleVisibilityChange "e1" false 5 fullState).activityBuffer =
      mapSet fullState.activityBuffer "e1"
        (List.replicate 100 fillerRecord ++
          [visibilityRecord "e1" "sid1" 5 false]) := by
  constructor
  · exact (size_flush_only_for_activity_updates [] true 0 "e1" "sid1"
      fbActivity nearFullState freshSession (List.replicate 99 fillerRecord)
      (by decide) (by decide)).1
  · exact ((size_flush_only_for_activity_updates [] true 0 "e1" "sid1"
      fbActivity nearFullState freshSession (List.replicate 99 fillerRecord)
      (by decide) (by decide)).2.2.1 "e1" false 5 fullState
      (List.replicate 100 fillerRecord) (by decide)).1

/-! ### C9 — disconnect versus explicit stop -/

/-- The session bound to socket `sock9` in the disconnect fixtures. -/
def sess9 : Session :=
  { sessionId := "sid9", socketId := "sock9", startTime := 0,
    lastActivity := none, violationCount := 0, lastViolationTime := none }

/-- A state for the disconnect fixtures: one session for `e9` bound to
socket `sock9`, one buffered record. -/
def st9 : HandlerState :=
  { activeSessions := [("e9", sess9)],
    activityBuffer := [("e9", [focusRecord "e9" "sid9" 3 true])],
    persistedBatches := [], alerts := [], captureRequests := [] }

/-- C9 counterexample: after a disconnect of `sock9` the buffer map still
holds an (emptied) entry for `e9`, while an explicit monitoring-stopped
event deletes that entry — the two cleanups do not leave the buffer map in
the same state. -/
theorem disconnect_keeps_buffer_entry :
    mapFind (handleClientDisconnect true "sock9" st9).activityBuffer "e9" =
        some [] ∧
    mapFind (handleMonitoringStopped true "e9" st9).activityBuffer "e9" =
        none ∧
    (handleClientDisconnect true "sock9" st9).activityBuffer ≠
      (handleMonitoringStopped true "e9" st9).activityBuffer := by decide

/-- C9 amended: for a subject whose session matches the closed connection,
the disconnect handler flushes the buffer and removes the session entry
exactly as the monitoring-stopped handler does — the session registries
and persisted batches agree — but it leaves the subject's buffer entry in
the buffer map, whereas the stop handler deletes it. -/
theorem disconnect_cleanup_keeps_buffer_map_entry (ok : Bool)
    (sockId emp : String) (s : Session) (st : HandlerState)
    (hfind : st.activeSessions.find? (fun p => p.2.socketId == sockId) =
      some (emp, s)) :
    (handleClientDisconnect ok sockId st).activeSessions =
      (handleMonitoringStopped ok emp st).activeSessions ∧
    (handleClientDisconnect ok sockId st).persistedBatches =
      (handleMonitoringStopped ok emp st).persistedBatches ∧
    (handleClientDisconnect ok sockId st).activityBuffer =
      (flushActivities ok emp st).activityBuffer ∧
    (handleMonitoringStopped ok emp st).activityBuffer =
      mapErase (flushActivities ok emp st).activityBuffer emp := by
  simp [handleClientDisconnect, handleMonitoringStopped, hfind]

/-- Witness for C9 (amended): the `st9` fixture instantiates the
equivalence-up-to-the-buffer-entry statement. -/
theorem disconnect_cleanup_keeps_buffer_map_entry_witness :
    (handleClientDisconnect true "sock9" st9).activeSessions =
      (handleMonitoringStopped true "e9" st9).activeSessions ∧
    (handleClientDisconnect true "sock9" st9).persistedBatches =
      (handleMonitoringStopped true "e9" st9).persistedBatches ∧
    (handleClientDisconnect true "sock9" st9).activityBuffer =
      (flushActivities true "e9" st9).activityBuffer ∧
    (handleMonitoringStopped true "e9" st9).activityBuffer =
      mapErase (flushActivities true "e9" st9).activityBuffer "e9" :=
  disconnect_cleanup_keeps_buffer_map_entry true "sock9" "e9" sess9 st9
    (by decide)

/-! ### C6 — ingest validation -/

/-- A Cloudinary upload result fixture. -/
def up0 : UploadResult :=
  { cloudinary_url := "https://cdn.example/shot.png",
    cloudinary_public_id := "pid0", file_size := some 4096,
    width := some 1280, height := some 720 }

/-- A well-formed capture metadata fixture. -/
def md0 : CaptureMetadata :=
  { timestamp := some "2025-01-01T00:00:00.000Z", url := some "https://x",
    title := some "T", width := none, height := none }

/-- An ingest payload with every required field except `imageData`. -/
def dMissingImage : ScreenshotData :=
  { employeeId := some "e1", sessionId := some "s1", trigger := "violation",
    imageData := none, metadata := some md0 }

/-- C6: whenever any of the four required ingest fields is missing, the
handler throws before the upload and the save, and its catch block emits a
single `screenshot-error` whose details carry one presence flag per
required field — so the whole observable behaviour is that one error
acknowledgment: no upload happens and no Capture Record is created. -/
theorem ingest_validation_rejects_missing_fields
    (parseDate : String → Option Nat) (now : Nat) (upload : UploadResult)
    (ocr : Option String) (ai : Option AIAnalysis) (d : ScreenshotData)
    (h : (d.employeeId.isNone || d.sessionId.isNone || d.imageData.isNone ||
      d.metadata.isNone) = true) :
    handleScreenshotCaptured parseDate now upload ocr ai d =
      [ ScreenshotEffect.ackError
          { hasEmployeeId := d.employeeId.isSome,
            hasSessionId := d.sessionId.isSome,
            hasImageData := d.imageData.isSome,
            hasMetadata := d.metadata.isSome } ] := by
  simp [handleScreenshotCaptured, h]

/-- Witness for C6: an ingest missing only `imageData` produces exactly
one error acknowledgment with `hasImageData := false` and the other flags
true. -/
theorem ingest_validation_rejects_missing_fields_witness :
    handleScreenshotCaptured (fun _ => none) 1000 up0 none none
        dMissingImage =
      [ ScreenshotEffect.ackError
          { hasEmployeeId := true, hasSessionId := true,
            hasImageData := false, hasMetadata := true } ] :=
  ingest_validation_rejects_missing_fields (fun _ => none) 1000 up0 none
    none dMissingImage (by decide)

/-! ### C7 — capture timestamp normalization -/

/-- Stand-in for JavaScript `Date` parsing under which the (parseable)
literal "2099-01-01T00:00:00.000Z" maps to the epoch value 2000000 —
far later than the ingestion instant used in the counterexample. -/
def parseDateFuture : String → Option Nat := fun _ => some 2000000

/-- An ingest payload whose metadata carries the parseable future
timestamp. -/
def dFutureStamp : ScreenshotData :=
  { employeeId := some "e1", sessionId := some "s1", trigger := "manual",
    imageData := some "img", metadata := some
      { timestamp := some "2099-01-01T00:00:00.000Z", url := none,
        title := none, width := none, height := none } }

/-- An ingest payload whose metadata timestamp is the unparseable string
"not-a-date". -/
def dNotADate : ScreenshotData :=
  { employeeId := some "e1", sessionId := some "s1", trigger := "manual",
    imageData := some "img", metadata := some
      { timestamp := some "not-a-date", url := none, title := none,
        width := none, height := none } }

/-- The metadata object of `dNotADate`. -/
def mdNotADate : CaptureMetadata :=
  { timestamp := some "not-a-date", url := none, title := none,
    width := none, height := none }

/-- C7 counterexample: the handler only replaces absent or unparseable
timestamps; a client timestamp that parses to an instant after the
ingestion time (here ingestion at 1000, parsed value 2000000) is stored
unchanged, so a Capture Record can carry a future timestamp. -/
theorem future_timestamp_stored_unchanged :
    savedTimestamps (handleScreenshotCaptured parseDateFuture 1000 up0
        none none dFutureStamp) = [2000000] ∧ 1000 < 2000000 := by decide

/-- C7 amended: every persisted Capture Record carries a defined
timestamp: the parsed client timestamp when `metadata.timestamp` is
present and parseable, and exactly the ingestion time when it is absent
or unparseable — but a parseable future timestamp is stored as sent. -/
theorem capture_timestamp_normalization
    (parseDate : String → Option Nat) (now : Nat) (upload : UploadResult)
    (ocr : Option String) (ai : Option AIAnalysis) (d : ScreenshotData)
    (e sid img : String) (md : CaptureMetadata)
    (he : d.employeeId = some e) (hsid : d.sessionId = some sid)
    (hi : d.imageData = some img) (hm : d.metadata = some md) :
    savedTimestamps (handleScreenshotCaptured parseDate now upload ocr ai
        d) = [normalizeTimestamp parseDate now md.timestamp] ∧
    (md.timestamp = none →
      normalizeTimestamp parseDate now md.timestamp = now) ∧
    (∀ ts, md.timestamp = some ts → parseDate ts = none →
      normalizeTimestamp parseDate now md.timestamp = now) := by
  refine ⟨?_, ?_, ?_⟩
  · by_cases ht : d.trigger = "violation" <;>
      simp [handleScreenshotCaptured, he, hsid, hi, hm, ht, savedTimestamps]
  · intro hnone
    simp [normalizeTimestamp, hnone]
  · intro ts hts hparse
    simp [normalizeTimestamp, hts, hparse]

/-- Witness for C7 (amended): ingesting `dNotADate` at time 777 under a
parse function that rejects "not-a-date" stores exactly the timestamp
777. -/
theorem capture_timestamp_normalization_witness :
    savedTimestamps (handleScreenshotCaptured (fun _ => none) 777 up0 none
        none dNotADate) = [777] := by
  have h := capture_timestamp_normalization (fun _ => none) 777 up0 none
    none dNotADate "e1" "s1" "img" mdNotADate rfl rfl rfl rfl
  rw [h.1, h.2.2 "not-a-date" rfl rfl]

/-! ### C8 — analysis versus acknowledgment ordering -/

/-- A violation-triggered ingest payload with all required fields. -/
def dViolation : ScreenshotData :=
  { employeeId := some "e1", sessionId := some "s1",
    trigger := "violation", imageData := some "img",
    metadata := some md0 }

/-- C8 counterexample: for a violation screenshot the handler awaits the
analysis step before acknowledging — in the effect trace the analysis
(position 2) strictly precedes `screenshot-processed` (position 3), so the
acknowledgment is not sent without waiting for OCR/AI analysis. -/
theorem ack_emitted_after_analysis :
    (handleScreenshotCaptured (fun _ => some 5) 1000 up0 none none
        dViolation).get? 2 =
      some (ScreenshotEffect.analyze
        (analyzeViolationScreenshot none none)) ∧
    (handleScreenshotCaptured (fun _ => some 5) 1000 up0 none none
        dViolation).get? 3 = some ScreenshotEffect.ackSuccess ∧
    (handleScreenshotCaptured (fun _ => some 5) 1000 up0 none none
        dViolation).take 3 = [ScreenshotEffect.upload true,
        ScreenshotEffect.saveCapture
          { employee := "e1", sessionId := "s1",
            file_path := "https://cdn.example/shot.png",
            file_hash := "pid0", capture_trigger := "unauthorized_access",
            timestamp := 5, url := "https://x",
            title := "T", width := 1280, height := 720 },
        ScreenshotEffect.analyze (analyzeViolationScreenshot none none)] :=
  by decide

/-- C8 amended: for every violation-triggered ingest with all required
fields, the trace is upload, save, awaited analysis, then acknowledgment —
the acknowledgment is always sent, even when the OCR and AI collaborators
are missing, unimplemented or throwing (modelled as `none` results), in
which case the default analysis payload (confidence 0.5, assumed
violation) is attached; but the acknowledgment follows the analysis step
rather than preceding it. -/
theorem ack_survives_analysis_failures
    (parseDate : String → Option Nat) (now : Nat) (upload : UploadResult)
    (ocr : Option String) (ai : Option AIAnalysis) (d : ScreenshotData)
    (e sid img : String) (md : CaptureMetadata)
    (he : d.employeeId = some e) (hsid : d.sessionId = some sid)
    (hi : d.imageData = some img) (hm : d.metadata = some md)
    (ht : d.trigger = "violation") :
    (∃ c, handleScreenshotCaptured parseDate now upload ocr ai d =
      [ ScreenshotEffect.upload true, ScreenshotEffect.saveCapture c,
        ScreenshotEffect.analyze (analyzeViolationScreenshot ocr ai),
        ScreenshotEffect.ackSuccess ]) ∧
    analyzeViolationScreenshot none none =
      { confidencePercent := 50, activityType := "violation",
        activityDescription := "Policy violation detected",
        alertReason := "unauthorized_access", ocrText := "",
        ocrConfidencePercent := 80 } := by
  constructor
  · refine ⟨?_, ?_⟩
    · exact
        { employee := e, sessionId := sid,
          file_path := upload.cloudinary_url,
          file_hash := upload.cloudinary_public_id,
          capture_trigger := "unauthorized_access",
          timestamp := normalizeTimestamp parseDate now md.timestamp,
          url := md.url.getD "unknown",
          title := md.title.getD "Unknown Application",
          width := upload.width.getD (md.width.getD 1920),
          height := upload.height.getD (md.height.getD 1080) }
    · simp [handleScreenshotCaptured, he, hsid, hi, hm, ht]
  · rfl

/-- Witness for C8 (amended): the `dViolation` fixture with both
collaborators absent still ends in `ackSuccess`, with the default
analysis payload in the trace. -/
theorem ack_survives_analysis_failures_witness :
    (∃ c, handleScreenshotCaptured (fun _ => some 5) 1000 up0 none none
        dViolation =
      [ ScreenshotEffect.upload true, ScreenshotEffect.saveCapture c,
        ScreenshotEffect.analyze (analyzeViolationScreenshot none none),
        ScreenshotEffect.ackSuccess ]) ∧
    analyzeViolationScreenshot none none =
      { confidencePercent := 50, activityType := "violation",
        activityDescription := "Policy violation detected",
        alertReason := "unauthorized_access", ocrText := "",
        ocrConfidencePercent := 80 } :=
  ack_survives_analysis_failures (fun _ => some 5) 1000 up0 none none
    dViolation "e1" "s1" "img" md0 rfl rfl rfl rfl rfl

/-! ### C10 — scheduled-capture delta skip -/

/-- A capture config whose previous screenshot hashed to "aaa". -/
def cfg10 : CaptureConfig :=
  { employeeId := "e1", sessionId := "s1", lastCaptureHash := some "aaa",
    captureCount := 3 }

/-- C10: when the new screenshot's MD5 equals the session's previous
capture hash, a `scheduled` capture returns `null` with no upload and no
persisted record and an unchanged config, while a capture with any other
trigger proceeds — uploading and saving a record and updating the config —
even though the hash is unchanged. -/
theorem captureScreen_delta_skip (cfg : CaptureConfig)
    (hash trigger : String) (now : Nat) (prev : Bool)
    (hHash : cfg.lastCaptureHash = some hash)
    (hTrig : trigger ≠ "scheduled") :
    captureScreen cfg "scheduled" hash now prev = (none, [], cfg) ∧
    captureScreen cfg trigger hash now prev =
      (some { employee := cfg.employeeId, sessionId := cfg.sessionId,
              file_hash := hash, capture_trigger := trigger,
              is_delta := prev, timestamp := now },
       [ ServiceEffect.upload, ServiceEffect.saveRecord
           { employee := cfg.employeeId, sessionId := cfg.sessionId,
             file_hash := hash, capture_trigger := trigger,
             is_delta := prev, timestamp := now } ],
       { cfg with lastCaptureHash := some hash,
                  captureCount := cfg.captureCount + 1 }) := by
  constructor
  · simp [captureScreen, hHash]
  · simp [captureScreen, hTrig]

/-- Witness for C10: a config whose previous hash is "aaa": the scheduled
capture with hash "aaa" is skipped entirely; a manual capture with the
same hash uploads and persists. -/
theorem captureScreen_delta_skip_witness :
    captureScreen cfg10 "scheduled" "aaa" 42 true = (none, [], cfg10) ∧
    captureScreen cfg10 "manual" "aaa" 42 true =
      (some { employee := "e1", sessionId := "s1", file_hash := "aaa",
              capture_trigger := "manual", is_delta := true,
              timestamp := 42 },
       [ ServiceEffect.upload, ServiceEffect.saveRecord
           { employee := "e1", sessionId := "s1", file_hash := "aaa",
             capture_trigger := "manual", is_delta := true,
             timestamp := 42 } ],
       { cfg10 with lastCaptureHash := some "aaa",
                    captureCount := cfg10.captureCount + 1 }) :=
  captureScreen_delta_skip cfg10 "aaa" "manual" 42 true (by decide)
    (by decide)

end Monitoring
